import Mathlib

/-!
Verification of the FFI logging bridge (src/lib.rs).

The source is a small Rust crate bridging the `log` facade to a foreign
callback.  We embed it shallowly: raw addresses are `Nat` (0 encodes the
null pointer), the optional user-data token is `Option Nat`, the atomic
callback slot is a plain `Nat` field updated by explicit state passing,
and a call of `log` returns the list of callback invocations it performs,
wrapped in `Option` so that `none` models a panic.
-/

namespace FfiLog

/-- Log severity levels of the `log` crate: Error < Warn < Info < Debug < Trace. -/
inductive Level
  | error
  | warn
  | info
  | debug
  | trace
  deriving DecidableEq

/-- Numeric value of a level, as in the `log` crate (`Error` is 1, `Trace` is 5). -/
def Level.toNat : Level → Nat
  | .error => 1
  | .warn => 2
  | .info => 3
  | .debug => 4
  | .trace => 5

/-- Level filters of the facade; `Off` is 0 and admits nothing. -/
inductive LevelFilter
  | off
  | error
  | warn
  | info
  | debug
  | trace
  deriving DecidableEq

/-- Numeric value of a level filter, as in the `log` crate. -/
def LevelFilter.toNat : LevelFilter → Nat
  | .off => 0
  | .error => 1
  | .warn => 2
  | .info => 3
  | .debug => 4
  | .trace => 5

/-- A foreign callback: an address together with the fact that Rust
`extern fn` pointers are never null. -/
structure Callback where
  addr : Nat
  addr_ne : addr ≠ 0

/-- The `FfiLogger` struct of src/lib.rs: the immutable optional user-data
token and the atomic callback slot (`AtomicPtr`), where 0 encodes null. -/
structure FfiLogger where
  data : Option Nat
  logger : Nat
  deriving DecidableEq

/-- `FfiLogger::new`: stores the callback address in the atomic slot and the
data token in the `data` field. -/
def FfiLogger.new (logger : Callback) (data : Option Nat) : FfiLogger :=
  ⟨data, logger.addr⟩

/-- Record metadata as passed to `Log::enabled`. -/
structure Metadata where
  level : Level

/-- `FfiLogger::enabled` ignores its metadata argument and returns true. -/
def FfiLogger.enabled (_self : FfiLogger) (_meta : Metadata) : Bool :=
  true

/-- The part of the global facade state that `log_enabled!` consults: the
max level set through `log::set_max_level`. -/
structure FacadeState where
  maxLevel : LevelFilter
  deriving DecidableEq

/-- The compile-time `STATIC_MAX_LEVEL` of the `log` crate, `Trace` under the
default feature set. -/
def STATIC_MAX_LEVEL : LevelFilter := .trace

/-- The `log_enabled!` macro: the level passes the static max level and the
dynamic max level, and the registered logger (here the bridge itself)
reports the metadata as enabled. -/
def log_enabled (st : FacadeState) (self : FfiLogger) (lvl : Level) : Bool :=
  decide (lvl.toNat ≤ STATIC_MAX_LEVEL.toNat) &&
    (decide (lvl.toNat ≤ st.maxLevel.toNat) && self.enabled ⟨lvl⟩)

/-- A log record: its severity and the bytes of the rendered message text
`record.args().to_string()`. -/
structure Record where
  level : Level
  args : List Nat
  deriving DecidableEq

/-- `CString::new`: fails when the bytes contain an interior 0 byte,
otherwise yields the bytes (the terminating 0 is kept implicit). -/
def cstringNew (bytes : List Nat) : Option (List Nat) :=
  if 0 ∈ bytes then none else some bytes

/-- The sanitizing map in `FfiLogger::log`: every 0 byte becomes the 0x1A
substitute control code, every other byte is kept. -/
def replaceNul (bytes : List Nat) : List Nat :=
  bytes.map fun c => if c = 0 then 0x1A else c

/-- The `match` in `FfiLogger::log` building the C string: try the bytes as
given, and on failure retry with 0 bytes replaced; `none` models the panic
of the final `unwrap`. -/
def renderMessage (bytes : List Nat) : Option (List Nat) :=
  match cstringNew bytes with
  | some cstr => some cstr
  | none => cstringNew (replaceNul bytes)

/-- One invocation of the foreign callback: the arguments it receives. -/
structure CallbackCall where
  data : Option Nat
  level : Level
  message : List Nat
  deriving DecidableEq

/-- `FfiLogger::log`: load the slot and return at once when it is null,
check `log_enabled!`, build the sanitized message and invoke the callback
once.  The result lists the callback invocations performed; `none` models
a panic of the `unwrap` in the message construction. -/
def FfiLogger.log (self : FfiLogger) (st : FacadeState) (record : Record) :
    Option (List CallbackCall) :=
  if self.logger = 0 then some []
  else if log_enabled st self record.level then
    (renderMessage record.args).map fun msg => [⟨self.data, record.level, msg⟩]
  else some []

/-- `Log::flush` for `FfiLogger` is a no-op. -/
def FfiLogger.flush (self : FfiLogger) : FfiLogger :=
  self

/-- The `LogHandle` struct: a reference to the logger, modelled by carrying
the referenced logger state. -/
structure LogHandle where
  logger : FfiLogger
  deriving DecidableEq

/-- `LogHandle::new`. -/
def LogHandle.new (logger : FfiLogger) : LogHandle :=
  ⟨logger⟩

/-- `LogHandle::deinit`: store null into the callback slot, then return the
`data` field.  The pair is the returned token and the updated referenced
logger. -/
def LogHandle.deinit (self : LogHandle) : Option Nat × LogHandle :=
  let stored : FfiLogger := ⟨self.logger.data, 0⟩
  (stored.data, ⟨stored⟩)

/-- An operation issued against the bridge after construction. -/
inductive Op
  | doLog (st : FacadeState) (record : Record)
  | doDeinit
  deriving DecidableEq

/-- Effect of one operation on the logger state: `log` takes a shared
reference and leaves the state untouched, `deinit` acts as
`LogHandle::deinit` does on the referenced logger. -/
def stepState (lg : FfiLogger) : Op → FfiLogger
  | .doLog _ _ => lg
  | .doDeinit => ((LogHandle.new lg).deinit).2.logger

/-- All logger states visited while running a sequence of operations,
starting state included. -/
def states (lg : FfiLogger) : List Op → List FfiLogger
  | [] => [lg]
  | op :: ops => lg :: states (stepState lg op) ops

/-! ### Helper lemmas -/

/-- The sanitized bytes contain no 0 byte. -/
theorem zero_not_mem_replaceNul (bytes : List Nat) : 0 ∉ replaceNul bytes := by
  intro hmem
  rcases List.mem_map.mp hmem with ⟨c, _, hc⟩
  by_cases h0 : c = 0 <;> simp [h0] at hc

/-- Sanitization leaves bytes without 0 untouched. -/
theorem replaceNul_of_not_mem (bytes : List Nat) (h : 0 ∉ bytes) :
    replaceNul bytes = bytes := by
  unfold replaceNul
  induction bytes with
  | nil => rfl
  | cons b bs ih =>
      simp only [List.mem_cons, not_or] at h
      have hb : b ≠ 0 := fun hb => h.1 hb.symm
      simp [hb, ih h.2]

/-- The message construction always succeeds and yields the sanitized
rendered bytes. -/
theorem renderMessage_eq (bytes : List Nat) :
    renderMessage bytes = some (replaceNul bytes) := by
  unfold renderMessage cstringNew
  by_cases h : 0 ∈ bytes
  · simp [h, zero_not_mem_replaceNul bytes]
  · simp [h, replaceNul_of_not_mem bytes h]

/-- A null slot makes `log` a successful no-op. -/
theorem log_null_slot (lg : FfiLogger) (st : FacadeState) (r : Record)
    (h : lg.logger = 0) : lg.log st r = some [] := by
  simp [FfiLogger.log, h]

/-- A live slot with the level admitted makes `log` perform exactly one
invocation carrying the data token, the severity and the sanitized text. -/
theorem log_live_slot (lg : FfiLogger) (st : FacadeState) (r : Record)
    (h1 : lg.logger ≠ 0) (h2 : log_enabled st lg r.level = true) :
    lg.log st r = some [⟨lg.data, r.level, replaceNul r.args⟩] := by
  simp [FfiLogger.log, h1, h2, renderMessage_eq]

/-- Single steps preserve a predicate on logger states, hence so does every
visited state of a run. -/
theorem states_invariant (P : FfiLogger → Prop)
    (hstep : ∀ lg op, P lg → P (stepState lg op)) :
    ∀ ops lg0, P lg0 → ∀ lg ∈ states lg0 ops, P lg := by
  intro ops
  induction ops with
  | nil =>
      intro lg0 h0 lg hmem
      simp [states] at hmem
      exact hmem ▸ h0
  | cons op ops ih =>
      intro lg0 h0 lg hmem
      simp only [states, List.mem_cons] at hmem
      rcases hmem with h | h
      · exact h ▸ h0
      · exact ih (stepState lg0 op) (hstep lg0 op h0) lg h

/-- No operation revives a null slot. -/
theorem stepState_slot_zero (lg : FfiLogger) (op : Op) (h : lg.logger = 0) :
    (stepState lg op).logger = 0 := by
  cases op <;> simp [stepState, LogHandle.new, LogHandle.deinit]
  exact h

/-! ### Claim theorems -/

/-- Claim C1, as stated, is false: the callback slot of this bridge is live
(address 1), yet with the facade max level Off the `log_enabled!` check
inside `log` filters the record out and the callback is invoked zero
times, not once. -/
theorem C1_counterexample :
    (FfiLogger.new ⟨1, Nat.one_ne_zero⟩ none).logger ≠ 0 ∧
      (FfiLogger.new ⟨1, Nat.one_ne_zero⟩ none).log ⟨.off⟩ ⟨.info, [104]⟩ =
        some [] := by
  exact ⟨by decide, rfl⟩

/-- Claim C1 (amended): with a non-null callback slot and the record level
admitted by the `log_enabled!` max-level check that `log` re-performs
internally, the foreign callback is invoked exactly once, with the severity
unchanged and the message being the rendered text with terminator bytes
substituted; the null-slot test and this `log_enabled!` test are the only
filtering conditions. -/
theorem C1_live_log_single_invocation (lg : FfiLogger) (st : FacadeState)
    (r : Record) (h1 : lg.logger ≠ 0)
    (h2 : log_enabled st lg r.level = true) :
    lg.log st r = some [⟨lg.data, r.level, replaceNul r.args⟩] :=
  log_live_slot lg st r h1 h2

/-- Claim C1 amended, witnessed at a concrete live bridge and admitted
level: exactly one invocation with severity Info and text "h". -/
theorem C1_live_log_single_invocation_witness :
    (FfiLogger.new ⟨1, Nat.one_ne_zero⟩ (some 7)).log ⟨.trace⟩ ⟨.info, [104]⟩ =
      some [⟨some 7, .info, [104]⟩] :=
  C1_live_log_single_invocation (FfiLogger.new ⟨1, Nat.one_ne_zero⟩ (some 7))
    ⟨.trace⟩ ⟨.info, [104]⟩ (by decide) (by decide)

/-- Claim C2, as stated, is false: constructing with data token `some 5`
and calling `deinit` twice, the second call returns the data token
`some 5`, not null. -/
theorem C2_counterexample :
    (LogHandle.new (FfiLogger.new ⟨1, Nat.one_ne_zero⟩
      (some 5))).deinit.2.deinit.1 ≠ none := by
  decide

/-- Claim C2 (amended): a second `deinit` is safe: it observes the null
slot, stores null again (leaving the logger state exactly as after the
first call), and returns the same construction data token as the first
call — which is null only when that token was null. -/
theorem C2_deinit_idempotent (cb : Callback) (d : Option Nat) :
    (LogHandle.new (FfiLogger.new cb d)).deinit.2.logger.logger = 0 ∧
      (LogHandle.new (FfiLogger.new cb d)).deinit.1 = d ∧
      (LogHandle.new (FfiLogger.new cb d)).deinit.2.deinit.1 = d ∧
      (LogHandle.new (FfiLogger.new cb d)).deinit.2.deinit.2 =
        (LogHandle.new (FfiLogger.new cb d)).deinit.2 :=
  ⟨rfl, rfl, rfl, rfl⟩

/-- Claim C3: once `deinit` has returned, the slot is null, every state
reachable by further operations keeps a null slot, and every subsequent
`log` call performs zero callback invocations. -/
theorem C3_no_invocation_after_deinit (h : LogHandle) (ops : List Op)
    (lg : FfiLogger) (hmem : lg ∈ states (h.deinit.2.logger) ops) :
    lg.logger = 0 ∧ ∀ st r, lg.log st r = some [] := by
  have hz : lg.logger = 0 :=
    states_invariant (fun x => x.logger = 0)
      (fun x op hx => stepState_slot_zero x op hx) ops
      (h.deinit.2.logger) rfl lg hmem
  exact ⟨hz, fun st r => log_null_slot lg st r hz⟩

/-- Claim C3 witnessed after one further log and one further deinit: the
final state has a null slot and its `log` is a no-op. -/
theorem C3_no_invocation_after_deinit_witness :
    (⟨some 3, 0⟩ : FfiLogger) ∈
        states ((LogHandle.new (FfiLogger.new ⟨2, Nat.succ_ne_zero 1⟩
          (some 3))).deinit.2.logger)
          [.doLog ⟨.trace⟩ ⟨.info, []⟩, .doDeinit] ∧
      ((⟨some 3, 0⟩ : FfiLogger).logger = 0 ∧
        ∀ st r, (⟨some 3, 0⟩ : FfiLogger).log st r = some []) :=
  ⟨by decide,
    C3_no_invocation_after_deinit
      (LogHandle.new (FfiLogger.new ⟨2, Nat.succ_ne_zero 1⟩ (some 3)))
      [.doLog ⟨.trace⟩ ⟨.info, []⟩, .doDeinit] ⟨some 3, 0⟩ (by decide)⟩

/-- Claim C4: when the rendered text contains 0 bytes and the live bridge
emits the record, the emitted message replaces each 0 byte one-for-one by
the 0x1A placeholder, keeps every other byte, keeps the length (never
truncates), and the call still succeeds with exactly one invocation. -/
theorem C4_nul_bytes_substituted (lg : FfiLogger) (st : FacadeState)
    (r : Record) (h0 : 0 ∈ r.args) (h1 : lg.logger ≠ 0)
    (h2 : log_enabled st lg r.level = true) :
    ∃ msg, lg.log st r = some [⟨lg.data, r.level, msg⟩] ∧
      msg.length = r.args.length ∧
      ∀ i, msg.get? i =
        (r.args.get? i).map fun c => if c = 0 then 0x1A else c := by
  refine ⟨replaceNul r.args, log_live_slot lg st r h1 h2, ?_, ?_⟩
  · exact List.length_map r.args _
  · intro i
    exact List.get?_map _ r.args i

/-- Claim C4 witnessed on the text with bytes 104, 0, 105: the emitted
message is 104, 26, 105 of the same length. -/
theorem C4_nul_bytes_substituted_witness :
    ∃ msg, (FfiLogger.new ⟨1, Nat.one_ne_zero⟩ (some 9)).log ⟨.debug⟩
        ⟨.warn, [104, 0, 105]⟩ = some [⟨some 9, .warn, msg⟩] ∧
      msg.length = [104, 0, 105].length ∧
      ∀ i, msg.get? i =
        (([104, 0, 105] : List Nat).get? i).map fun c =>
          if c = 0 then 0x1A else c :=
  C4_nul_bytes_substituted (FfiLogger.new ⟨1, Nat.one_ne_zero⟩ (some 9))
    ⟨.debug⟩ ⟨.warn, [104, 0, 105]⟩ (by decide) (by decide) (by decide)

/-- Claim C5: along any operation sequence from construction the slot holds
either the construction callback address or 0; no operation turns a null
slot non-null again, and a state with a null slot treats `log` as a no-op
sink. -/
theorem C5_slot_one_way (cb : Callback) (d : Option Nat) (ops : List Op)
    (lg : FfiLogger) (hmem : lg ∈ states (FfiLogger.new cb d) ops) :
    (lg.logger = cb.addr ∨ lg.logger = 0) ∧
      (∀ op, lg.logger = 0 → (stepState lg op).logger = 0) ∧
      (lg.logger = 0 → ∀ st r, lg.log st r = some []) := by
  refine ⟨?_, fun op hz => stepState_slot_zero lg op hz,
    fun hz st r => log_null_slot lg st r hz⟩
  refine states_invariant (fun x => x.logger = cb.addr ∨ x.logger = 0)
    ?_ ops (FfiLogger.new cb d) (Or.inl rfl) lg hmem
  intro x op hx
  cases op with
  | doLog st r => exact hx
  | doDeinit => exact Or.inr rfl

/-- Claim C5 witnessed on the trace log-deinit-log: the final state holds
the null slot and all invariant parts hold there. -/
theorem C5_slot_one_way_witness :
    (⟨some 4, 0⟩ : FfiLogger) ∈
        states (FfiLogger.new ⟨3, Nat.succ_ne_zero 2⟩ (some 4))
          [.doLog ⟨.trace⟩ ⟨.info, []⟩, .doDeinit,
            .doLog ⟨.trace⟩ ⟨.error, []⟩] ∧
      (((⟨some 4, 0⟩ : FfiLogger).logger = 3 ∨
          (⟨some 4, 0⟩ : FfiLogger).logger = 0) ∧
        (∀ op, (⟨some 4, 0⟩ : FfiLogger).logger = 0 →
          (stepState (⟨some 4, 0⟩ : FfiLogger) op).logger = 0) ∧
        ((⟨some 4, 0⟩ : FfiLogger).logger = 0 →
          ∀ st r, (⟨some 4, 0⟩ : FfiLogger).log st r = some [])) :=
  ⟨by decide,
    C5_slot_one_way ⟨3, Nat.succ_ne_zero 2⟩ (some 4)
      [.doLog ⟨.trace⟩ ⟨.info, []⟩, .doDeinit, .doLog ⟨.trace⟩ ⟨.error, []⟩]
      ⟨some 4, 0⟩ (by decide)⟩

/-- Claim C6: constructing a bridge with any data token (including none)
and immediately calling `deinit` returns exactly that token. -/
theorem C6_data_roundtrip (cb : Callback) (d : Option Nat) :
    (LogHandle.new (FfiLogger.new cb d)).deinit.1 = d :=
  rfl

/-- Claim C7: `enabled` returns true for every logger state (a null slot
included) and every metadata argument. -/
theorem C7_enabled_always_true (lg : FfiLogger) (m : Metadata) :
    lg.enabled m = true :=
  rfl

/-- Claim C8: with a null callback slot, `log` returns at once as a
successful no-op: zero invocations, no panic, and the logger state is
unchanged. -/
theorem C8_null_slot_noop (lg : FfiLogger) (st : FacadeState) (r : Record)
    (h : lg.logger = 0) :
    lg.log st r = some [] ∧ stepState lg (.doLog st r) = lg :=
  ⟨log_null_slot lg st r h, rfl⟩

/-- Claim C8 witnessed on a concrete detached bridge. -/
theorem C8_null_slot_noop_witness :
    (⟨none, 0⟩ : FfiLogger).log ⟨.trace⟩ ⟨.info, [104]⟩ = some [] ∧
      stepState (⟨none, 0⟩ : FfiLogger) (.doLog ⟨.trace⟩ ⟨.info, [104]⟩) =
        (⟨none, 0⟩ : FfiLogger) :=
  C8_null_slot_noop ⟨none, 0⟩ ⟨.trace⟩ ⟨.info, [104]⟩ rfl

/-- Claim C9: `deinit` writes only the callback slot: it returns the stored
data token and leaves the data field untouched, and construction stores the
supplied token, so every call — first or repeated — returns the
construction token. -/
theorem C9_deinit_preserves_data (cb : Callback) (d : Option Nat)
    (h : LogHandle) :
    (FfiLogger.new cb d).data = d ∧
      h.deinit = (h.logger.data, LogHandle.new ⟨h.logger.data, 0⟩) :=
  ⟨rfl, rfl⟩

/-- Claim C10: the 0-byte substitution makes the second C-string
construction always succeed, so the `unwrap` branch is unreachable and
`log` never panics: it always returns a result, on any message content. -/
theorem C10_log_never_panics (lg : FfiLogger) (st : FacadeState)
    (r : Record) :
    cstringNew (replaceNul r.args) = some (replaceNul r.args) ∧
      (lg.log st r).isSome = true := by
  constructor
  · simp [cstringNew, zero_not_mem_replaceNul r.args]
  · unfold FfiLogger.log
    by_cases h1 : lg.logger = 0
    · simp [h1]
    · by_cases h2 : log_enabled st lg r.level
      · simp [h1, h2, renderMessage_eq]
      · simp [h1, h2]

end FfiLog
